import Mathlib

/-!
Verification of the locale-sync utility `trans.py`.

The script uploads source strings to a translation service, downloads the
translated files, and then normalises the downloaded files: it strips country
suffixes from filenames, deletes files for unsupported locales, and rewrites
the content of the remaining files.

File contents and filenames are modelled as `List Char`; the Python string
primitives used by the script (`str.replace`, `str.rfind`, `str.split`,
slicing with a possibly negative bound) are embedded below with their Python
semantics.
-/

set_option maxRecDepth 4000

namespace Trans

/-- The fixed allow-list `SUPPORTED_LOCALE` of `trans.py` (lines 24-31). -/
def SUPPORTED_LOCALE : List (List Char) :=
  ["de", "es", "hr", "fi", "ro", "ru"].map String.toList

/-- The target directory path `root` of `trans.py` (line 38). -/
def root : List Char := "app/script/localization/".toList

/-- `beginsWith pat s` is true when `pat` occurs at the start of `s`. -/
def beginsWith : List Char → List Char → Bool
  | [], _ => true
  | _ :: _, [] => false
  | p :: ps, c :: cs => p == c && beginsWith ps cs

/-- Fuel-indexed worker for Python `str.replace` with a nonempty pattern:
scan left to right, replacing non-overlapping occurrences of `pat` by `rep`.
The fuel is the length of the scanned string, so the fuel-exhausted branch is
never reached. -/
def replaceGo (pat rep : List Char) : Nat → List Char → List Char
  | _, [] => []
  | 0, s => s
  | fuel + 1, c :: rest =>
    if beginsWith pat (c :: rest) then
      rep ++ replaceGo pat rep fuel (List.drop (pat.length - 1) rest)
    else
      c :: replaceGo pat rep fuel rest

/-- Python `s.replace(pat, rep)` on character lists, including the
empty-pattern behaviour (insert `rep` before every character and at the end). -/
def pyReplace (s pat rep : List Char) : List Char :=
  match pat with
  | [] => rep ++ (s.map (fun c => c :: rep)).flatten
  | _ :: _ => replaceGo pat rep s.length s

/-- Python `s.rfind(ch)` for a single-character pattern: the index of the last
occurrence of `ch` in `s`, or `-1` when `ch` does not occur. -/
def pyRFindChar (s : List Char) (ch : Char) : Int :=
  match s with
  | [] => -1
  | c :: rest =>
    let r := pyRFindChar rest ch
    if r ≥ 0 then r + 1 else if c == ch then 0 else -1

/-- Python slice `s[:k]` for an integer bound `k`; a negative bound counts
from the end of the string, clamped at zero. -/
def pySliceTo (s : List Char) (k : Int) : List Char :=
  if k ≥ 0 then s.take k.toNat else s.take (s.length - (-k).toNat)

/-- Python `s.split(sep)` for a single-character separator; the result is
always nonempty, and empty fields are kept. -/
def pySplitChar (sep : Char) : List Char → List (List Char)
  | [] => [[]]
  | c :: rest =>
    match pySplitChar sep rest with
    | [] => [[]]
    | g :: gs => if c == sep then [] :: g :: gs else (c :: g) :: gs

/-- `remove_country` of `trans.py` (lines 41-46): when the filename has exactly
three dash-separated components, the file is renamed; the result is the new
filename `parts[0]-parts[1].coffee` chosen for the rename, or `none` when no
rename happens.  The Python function acts on the file system and returns
nothing; the rename destination is the observable effect modelled here. -/
def remove_country (filename : List Char) : Option (List Char) :=
  if h : (pySplitChar '-' filename).length = 3 then
    some ((pySplitChar '-' filename).get ⟨0, by omega⟩ ++
      '-' :: (pySplitChar '-' filename).get ⟨1, by omega⟩ ++ ".coffee".toList)
  else
    none

/-- `get_locale` of `trans.py` (lines 49-51): delete every occurrence of
`strings-` and of `.coffee` anywhere in the filename, and keep the result only
when it has exactly two characters. -/
def get_locale (filename : List Char) : Option (List Char) :=
  let locale := pyReplace (pyReplace filename "strings-".toList []) ".coffee".toList []
  if locale.length = 2 then some locale else none

/-- The unqualified namespace token `zstr` (line 68). -/
def zstr : List Char := "z.string.".toList

/-- The locale-qualified namespace token `zstrl` (line 69). -/
def zstrl (locale : List Char) : List Char := zstr ++ locale ++ ['.']

/-- The two-step namespace substitution of line 71:
`source.replace(zstrl, zstr).replace(zstr, zstrl)`. -/
def swapStep (locale s : List Char) : List Char :=
  pyReplace (pyReplace s (zstrl locale) zstr) zstr (zstrl locale)

/-- Lines 70-73 of the content rewrite: generator-line removal, the two-step
namespace substitution, spacing normalisation around `=`, and unescaping of
backslash-colon. -/
def substitutions (locale s : List Char) : List Char :=
  let s1 := pyReplace s "#X-Generator: crowdin.com\n".toList []
  let s2 := swapStep locale s1
  let s3 := pyReplace s2 "=\x27".toList " = \x27".toList
  pyReplace s3 ['\\', ':'] [':']

/-- Line 74: `source[:source.rfind('\n')]`, truncation at the last newline. -/
def truncateAtLastNewline (s : List Char) : List Char :=
  pySliceTo s (pyRFindChar s '\n')

/-- The whole content rewrite of lines 70-74. -/
def rewriteContent (locale s : List Char) : List Char :=
  truncateAtLastNewline (substitutions locale s)

/-- The observable effects of one iteration of the main loop on one directory
entry: the rename destination chosen by `remove_country` (if any), whether the
file is deleted, the stdout message written (if any), the content written back
to the file (if any), and whether the iteration aborts the run with an
unhandled `FileNotFoundError` because lines 61 or 64 touch the original path
after `remove_country` has renamed the entry away. -/
structure EntryEffect where
  renamedTo : Option (List Char)
  deleted : Bool
  message : Option (List Char)
  written : Option (List Char)
  crashed : Bool
deriving DecidableEq

/-- The stdout line of the unsupported-locale branch (line 60), with the path
`root ++ filename` and the trailing newline of `sys.stdout.write`. -/
def removalMessage (locale filename : List Char) : List Char :=
  "Removing unsupported locale \"".toList ++ locale ++ "\" (".toList ++
    root ++ filename ++ ")\n".toList

/-- One iteration of the main loop (lines 54-75) on the entry `filename`,
where `content filename` is the text read from the file.  `remove_country`
always runs first; the locale is then derived from `filename` and the entry is
skipped, deleted, or rewritten.  A rename destination always differs from its
source (the destination holds one dash, the source two) and each iteration
renames only its own entry, so at lines 61 and 64 the original path
`root ++ filename` exists exactly when `remove_country` did not rename the
entry.  When it did, the unsupported branch still prints its message (line 60
precedes `os.remove`) and then `os.remove` raises `FileNotFoundError`, and the
supported branch raises at `open` before reading or writing anything. -/
def processEntry (content : List Char → List Char) (filename : List Char) :
    EntryEffect :=
  match get_locale filename with
  | none => ⟨remove_country filename, false, none, none, false⟩
  | some locale =>
    if locale ∈ SUPPORTED_LOCALE then
      match remove_country filename with
      | some dest => ⟨some dest, false, none, none, true⟩
      | none =>
        ⟨none, false, none, some (rewriteContent locale (content filename)), false⟩
    else
      match remove_country filename with
      | some dest =>
        ⟨some dest, false, some (removalMessage locale filename), none, true⟩
      | none =>
        ⟨none, true, some (removalMessage locale filename), none, false⟩

/-- The observable file-system and stdout effects of a whole run: renames
(source path, destination path), deleted paths, stdout lines, and content
writes (path, new content), each in loop order, and whether the run was
terminated by an unhandled exception before reaching the end of the listing. -/
structure RunResult where
  renames : List (List Char × List Char)
  deletions : List (List Char)
  stdoutLines : List (List Char)
  writes : List (List Char × List Char)
  aborted : Bool
deriving DecidableEq

/-- The main loop folded over the directory listing.  An entry whose iteration
raises `FileNotFoundError` keeps the effects it performed before the exception
(the rename and, in the unsupported branch, the message) and terminates the
run: the remaining entries are not processed. -/
def processListing (content : List Char → List Char) :
    List (List Char) → RunResult
  | [] => ⟨[], [], [], [], false⟩
  | f :: rest =>
    let e := processEntry content f
    if e.crashed then
      ⟨(match e.renamedTo with
         | some d => [(root ++ f, root ++ d)]
         | none => []),
       [],
       (match e.message with | some m => [m] | none => []),
       [], true⟩
    else
      let r := processListing content rest
      ⟨(match e.renamedTo with
         | some d => [(root ++ f, root ++ d)]
         | none => []) ++ r.renames,
       (if e.deleted then [root ++ f] else []) ++ r.deletions,
       (match e.message with | some m => [m] | none => []) ++ r.stdoutLines,
       (match e.written with | some w => [(root ++ f, w)] | none => []) ++ r.writes,
       r.aborted⟩

/-- The whole script: the two `os.system` invocations (lines 34-35) return the
exit statuses `uploadStatus` and `downloadStatus` of the external commands; the
script discards both return values, and the directory scan and main loop then
run unconditionally. -/
def runScript (uploadStatus downloadStatus : Int) (files : List (List Char))
    (content : List Char → List Char) : RunResult :=
  processListing content files

/-- When a character does not occur in the string, `rfind` yields `-1`. -/
theorem pyRFindChar_of_not_mem {s : List Char} {ch : Char} (h : ch ∉ s) :
    pyRFindChar s ch = -1 := by
  induction s with
  | nil => rfl
  | cons c rest ih =>
    have hc : ¬c = ch := fun e => h (e ▸ List.mem_cons_self c rest)
    have hr : ch ∉ rest := fun m => h (List.mem_cons_of_mem c m)
    simp [pyRFindChar, ih hr, hc]

/-- The slice `s[:-1]` drops the last character. -/
theorem pySliceTo_neg_one (s : List Char) : pySliceTo s (-1) = s.dropLast := by
  rw [List.dropLast_eq_take]
  simp [pySliceTo]

/-- A filename that does not split into exactly three dash-separated
components is not renamed. -/
theorem remove_country_of_len_ne_three {f : List Char}
    (h : (pySplitChar '-' f).length ≠ 3) : remove_country f = none := by
  rw [remove_country, dif_neg h]

/-- Entries whose derived locale is `none` are only subject to the rename
step; they are not deleted, print nothing, are not rewritten, and do not
abort the run. -/
theorem processEntry_of_no_locale (content : List Char → List Char)
    {f : List Char} (h : get_locale f = none) :
    processEntry content f = ⟨remove_country f, false, none, none, false⟩ := by
  rw [processEntry, h]

/-- C1 (counterexample): the content rewrite is not a full swap of the
namespace tokens.  On the claimed input with locale `de`, the actual output
keeps `z.string.de.world` locale-qualified, so it differs from the output the
claim predicts (`z.string.de.hello = 1\nz.string.world = 2`). -/
theorem c1_counterexample :
    rewriteContent "de".toList
      "#X-Generator: crowdin.com\nz.string.hello = 1\nz.string.de.world = 2\n".toList
      = "z.string.de.hello = 1\nz.string.de.world = 2".toList
    ∧ ("z.string.de.hello = 1\nz.string.de.world = 2".toList : List Char)
      ≠ "z.string.de.hello = 1\nz.string.world = 2".toList :=
  ⟨by decide, by decide⟩

/-- C1 (amended): the two-step substitution first unqualifies the
locale-qualified occurrences and then re-qualifies every unqualified
occurrence, including the ones just produced, so every namespace occurrence
ends up locale-qualified.  On the claimed input with locale `de`, the
generator line is removed, `z.string.hello` becomes `z.string.de.hello`,
`z.string.de.world` stays `z.string.de.world`, and the trailing newline
segment is truncated. -/
theorem c1_swap_requalifies_everything :
    swapStep "de".toList "z.string.hello".toList = "z.string.de.hello".toList
    ∧ swapStep "de".toList "z.string.de.world".toList = "z.string.de.world".toList
    ∧ rewriteContent "de".toList
        "#X-Generator: crowdin.com\nz.string.hello = 1\nz.string.de.world = 2\n".toList
        = "z.string.de.hello = 1\nz.string.de.world = 2".toList :=
  ⟨by decide, by decide, by decide⟩

/-- C2 (counterexample): the locale is not derived from the renamed filename.
The entry `strings-de-CH.coffee` is renamed to `strings-de.coffee` on disk,
but the locale is computed from the original listing name, which yields
`de-CH` (five characters), hence `none`: the entry is not deleted, prints
nothing, and is not rewritten in this pass, contradicting the claim that it is
processed with derived locale `de`. -/
theorem c2_counterexample :
    processEntry (fun _ => []) "strings-de-CH.coffee".toList
      = ⟨some "strings-de.coffee".toList, false, none, none, false⟩
    ∧ get_locale "strings-de-CH.coffee".toList = none :=
  ⟨by decide, by decide⟩

/-- C2 (amended): the locale is derived from the original directory-listing
filename, before any renaming: whenever that derivation yields `none`, the
entry is only renamed (if three-component) and otherwise untouched.  In
particular `strings-de-CH.coffee` is renamed to `strings-de.coffee` but is
skipped for the locale-dependent steps in this pass. -/
theorem c2_locale_from_original_name :
    (∀ (content : List Char → List Char) (f : List Char),
      get_locale f = none →
        processEntry content f = ⟨remove_country f, false, none, none, false⟩)
    ∧ get_locale "strings-de-CH.coffee".toList = none
    ∧ remove_country "strings-de-CH.coffee".toList = some "strings-de.coffee".toList :=
  ⟨fun content _ h => processEntry_of_no_locale content h, by decide, by decide⟩

/-- C2 (witness): the amended statement applied to the concrete entry
`strings-fr-CA.coffee`, which is renamed to `strings-fr.coffee` and skipped. -/
theorem c2_witness :
    processEntry (fun _ => []) "strings-fr-CA.coffee".toList
      = ⟨some "strings-fr.coffee".toList, false, none, none, false⟩ := by
  have h := c2_locale_from_original_name.1 (fun _ => [])
    "strings-fr-CA.coffee".toList (by decide)
  rw [h]; decide

/-- C3: every filename that splits on `-` into exactly three components
`p0-p1-p2` is renamed to `p0-p1.coffee`, dropping the middle (country)
component and keeping the locale component and the `.coffee` extension (the
concrete extension the spec placeholder `.ext` denotes), as on
`strings-de-CH.coffee`, which becomes `strings-de.coffee`; every filename with
exactly two components is not renamed. -/
theorem c3_rename_drops_country :
    (∀ f p0 p1 p2 : List Char, pySplitChar '-' f = [p0, p1, p2] →
      remove_country f = some (p0 ++ '-' :: p1 ++ ".coffee".toList))
    ∧ ∀ f : List Char, (pySplitChar '-' f).length = 2 → remove_country f = none := by
  constructor
  · intro f p0 p1 p2 h
    have h3 : (pySplitChar '-' f).length = 3 := by rw [h]; rfl
    rw [remove_country, dif_pos h3]
    simp [h]
  · exact fun _ h => remove_country_of_len_ne_three (by omega)

/-- C3 (witness): the three-component name `strings-de-CH.coffee` is renamed
to `strings-de.coffee`, and the two-component name `strings-ro.coffee` is not
renamed. -/
theorem c3_witness :
    remove_country "strings-de-CH.coffee".toList = some "strings-de.coffee".toList
    ∧ remove_country "strings-ro.coffee".toList = none :=
  ⟨c3_rename_drops_country.1 "strings-de-CH.coffee".toList
      "strings".toList "de".toList "CH.coffee".toList (by decide),
   c3_rename_drops_country.2 "strings-ro.coffee".toList (by decide)⟩

/-- C4 (counterexample): an unsupported two-character locale does not always
lead to a deletion.  The entry `strings-strings-ab.coffee` derives the
unsupported locale `ab` but has three dash-separated components, so the
country-stripping step renames it to `strings-strings.coffee` first; the
message is still printed, but `os.remove` then hits the no-longer-existing
original path and the run aborts: the file is not deleted and the following
entry `strings-fr.coffee` is never processed. -/
theorem c4_counterexample :
    get_locale "strings-strings-ab.coffee".toList = some "ab".toList
    ∧ ("ab".toList : List Char) ∉ SUPPORTED_LOCALE
    ∧ processEntry (fun _ => []) "strings-strings-ab.coffee".toList
        = ⟨some "strings-strings.coffee".toList, false,
           some (removalMessage "ab".toList "strings-strings-ab.coffee".toList),
           none, true⟩
    ∧ (processListing (fun _ => [])
        ["strings-strings-ab.coffee".toList, "strings-fr.coffee".toList]).deletions
        = []
    ∧ (processListing (fun _ => [])
        ["strings-strings-ab.coffee".toList, "strings-fr.coffee".toList]).aborted
        = true :=
  ⟨by decide, by decide, by decide, by decide, by decide⟩

/-- C4 (amended): an entry whose derived locale is two characters but not in
the supported set, and whose name does not split into exactly three
dash-separated components (so the country-stripping step has not renamed it
away), is deleted, exactly one stdout line
`Removing unsupported locale "<locale>" (<path>)` is emitted for it, no
content is written for it, the run does not abort there, and the remaining
entries of the listing are processed unchanged. -/
theorem c4_unsupported_deleted (content : List Char → List Char)
    (f l : List Char) (rest : List (List Char))
    (h1 : get_locale f = some l) (h2 : l ∉ SUPPORTED_LOCALE)
    (h3 : (pySplitChar '-' f).length ≠ 3) :
    (processEntry content f).deleted = true
    ∧ (processEntry content f).message = some (removalMessage l f)
    ∧ (processEntry content f).written = none
    ∧ (processEntry content f).crashed = false
    ∧ (processListing content (f :: rest)).stdoutLines
        = removalMessage l f :: (processListing content rest).stdoutLines
    ∧ (processListing content (f :: rest)).deletions
        = (root ++ f) :: (processListing content rest).deletions
    ∧ (processListing content (f :: rest)).writes
        = (processListing content rest).writes
    ∧ (processListing content (f :: rest)).aborted
        = (processListing content rest).aborted := by
  have hr : remove_country f = none := remove_country_of_len_ne_three h3
  have he : processEntry content f
      = ⟨none, true, some (removalMessage l f), none, false⟩ := by
    simp only [processEntry, h1, hr]
    rw [if_neg h2]
  refine ⟨by rw [he], by rw [he], by rw [he], by rw [he], ?_, ?_, ?_, ?_⟩ <;>
    simp [processListing, he]

/-- C4 (witness): the concrete unsupported two-component entry
`strings-fr.coffee` (locale `fr`) is deleted with exactly one message and no
abort, and a following entry is still processed. -/
theorem c4_witness :
    (processEntry (fun _ => []) "strings-fr.coffee".toList).deleted = true
    ∧ (processEntry (fun _ => []) "strings-fr.coffee".toList).message
        = some (removalMessage "fr".toList "strings-fr.coffee".toList)
    ∧ (processEntry (fun _ => []) "strings-fr.coffee".toList).written = none
    ∧ (processEntry (fun _ => []) "strings-fr.coffee".toList).crashed = false
    ∧ (processListing (fun _ => []) ["strings-fr.coffee".toList]).stdoutLines
        = removalMessage "fr".toList "strings-fr.coffee".toList
            :: (processListing (fun _ => []) []).stdoutLines
    ∧ (processListing (fun _ => []) ["strings-fr.coffee".toList]).deletions
        = (root ++ "strings-fr.coffee".toList)
            :: (processListing (fun _ => []) []).deletions
    ∧ (processListing (fun _ => []) ["strings-fr.coffee".toList]).writes
        = (processListing (fun _ => []) []).writes
    ∧ (processListing (fun _ => []) ["strings-fr.coffee".toList]).aborted
        = (processListing (fun _ => []) []).aborted :=
  c4_unsupported_deleted (fun _ => []) "strings-fr.coffee".toList "fr".toList []
    (by decide) (by decide) (by decide)

/-- C5 (counterexample): an entry with a supported derived locale can still be
renamed.  `strings-strings-de.coffee` derives locale `de` (every occurrence of
`strings-` is deleted), which is supported, yet the name has three
dash-separated components, so the country-stripping step renames the file to
`strings-strings.coffee` before the locale check. -/
theorem c5_counterexample :
    get_locale "strings-strings-de.coffee".toList = some "de".toList
    ∧ ("de".toList : List Char) ∈ SUPPORTED_LOCALE
    ∧ (processEntry (fun _ => []) "strings-strings-de.coffee".toList).renamedTo
        = some "strings-strings.coffee".toList :=
  ⟨by decide, by decide, by decide⟩

/-- C5 (amended): an entry whose derived locale is supported and whose name
does not split into exactly three dash-separated components is neither renamed
nor deleted, prints nothing, and has its content rewritten in place. -/
theorem c5_supported_survives (content : List Char → List Char)
    (f l : List Char) (h1 : get_locale f = some l) (h2 : l ∈ SUPPORTED_LOCALE)
    (h3 : (pySplitChar '-' f).length ≠ 3) :
    processEntry content f
      = ⟨none, false, none, some (rewriteContent l (content f)), false⟩ := by
  simp only [processEntry, h1, remove_country_of_len_ne_three h3]
  rw [if_pos h2]

/-- C5 (witness): the concrete supported entry `strings-de.coffee` survives
untouched except for the content rewrite. -/
theorem c5_witness :
    processEntry (fun _ => "z.string.x = 1\n".toList) "strings-de.coffee".toList
      = ⟨none, false, none,
          some (rewriteContent "de".toList "z.string.x = 1\n".toList), false⟩ :=
  c5_supported_survives (fun _ => "z.string.x = 1\n".toList)
    "strings-de.coffee".toList "de".toList (by decide) (by decide) (by decide)

/-- C6: the two-component entry `strings-ro.coffee` derives the supported
locale `ro`, is neither renamed nor deleted, prints nothing, and has its
content rewritten by the step-7 substitutions; on the sample content
`z.string.greet = 1\n` the rewrite produces `z.string.ro.greet = 1`. -/
theorem c6_strings_ro_untouched :
    get_locale "strings-ro.coffee".toList = some "ro".toList
    ∧ remove_country "strings-ro.coffee".toList = none
    ∧ processEntry (fun _ => "z.string.greet = 1\n".toList)
        "strings-ro.coffee".toList
        = ⟨none, false, none,
            some (rewriteContent "ro".toList "z.string.greet = 1\n".toList), false⟩
    ∧ rewriteContent "ro".toList "z.string.greet = 1\n".toList
        = "z.string.ro.greet = 1".toList :=
  ⟨by decide, by decide, by decide, by decide⟩

/-- C7 (counterexample): a failing external invocation does not stop the run.
With both `os.system` calls returning the failure status 127, the script still
enumerates the directory, deletes the unsupported entry `strings-fr.coffee`,
and emits its message. -/
theorem c7_counterexample :
    (runScript 127 127 ["strings-fr.coffee".toList] (fun _ => [])).deletions
      = [root ++ "strings-fr.coffee".toList]
    ∧ (runScript 127 127 ["strings-fr.coffee".toList] (fun _ => [])).stdoutLines
      ≠ [] :=
  ⟨by decide, by decide⟩

/-- C7 (amended): the script discards the exit statuses of the external upload
and download invocations; whatever those statuses are, the directory scan,
renaming, deletion and content rewriting proceed exactly as they would after
two successful invocations. -/
theorem c7_statuses_ignored (uploadStatus downloadStatus : Int)
    (files : List (List Char)) (content : List Char → List Char) :
    runScript uploadStatus downloadStatus files content
      = runScript 0 0 files content := rfl

/-- C8: the namespace-swap step is not an involution: for the supported
locale `de` and the content `z.string.hello`, applying the two-step
substitution twice yields `z.string.de.hello`, not the original content. -/
theorem c8_not_involution :
    ("de".toList : List Char) ∈ SUPPORTED_LOCALE
    ∧ swapStep "de".toList (swapStep "de".toList "z.string.hello".toList)
        ≠ "z.string.hello".toList
    ∧ swapStep "de".toList (swapStep "de".toList "z.string.hello".toList)
        = "z.string.de.hello".toList :=
  ⟨by decide, by decide, by decide⟩

/-- C10: when the content left after the substitutions contains no newline,
`rfind` yields `-1`, the slice `[:-1]` drops the last character, and the file
is written back one character shorter (its `dropLast`); empty content stays
empty. -/
theorem c10_no_newline_truncation (l s : List Char)
    (h : '\n' ∉ substitutions l s) :
    rewriteContent l s = (substitutions l s).dropLast
    ∧ (substitutions l s ≠ [] →
        (rewriteContent l s).length + 1 = (substitutions l s).length) := by
  have h1 : pyRFindChar (substitutions l s) '\n' = -1 := pyRFindChar_of_not_mem h
  have h2 : rewriteContent l s = (substitutions l s).dropLast := by
    rw [rewriteContent, truncateAtLastNewline, h1, pySliceTo_neg_one]
  refine ⟨h2, fun hne => ?_⟩
  rw [h2, List.length_dropLast]
  have := List.length_pos.mpr hne
  omega

/-- C10 (witness): on locale `de` and content `z.string.x` (no newline
anywhere), the rewrite drops the last character of the substituted content
`z.string.de.x`. -/
theorem c10_witness :
    rewriteContent "de".toList "z.string.x".toList
      = (substitutions "de".toList "z.string.x".toList).dropLast
    ∧ (substitutions "de".toList "z.string.x".toList ≠ [] →
        (rewriteContent "de".toList "z.string.x".toList).length + 1
          = (substitutions "de".toList "z.string.x".toList).length) :=
  c10_no_newline_truncation "de".toList "z.string.x".toList (by decide)

end Trans

